import Mathlib

/-!
Shallow embedding of the poopak crawl-orchestration core
(`application/crawler/curl.py`, `application/crawler/html_extractors.py`,
`application/crawler/spider.py`, `application/crawler/data_storage.py`)
together with the configuration constants it reads
(`application/crawler/config_crawler.py`, `application/config/constants.py`).

Conventions of the embedding:
* machine integers are `Nat`; HTTP status codes are `Nat`;
* raw response bytes are `List Nat` (one entry per byte); UTF-8 decoding is
  modelled as succeeding exactly on ASCII byte sequences (`decodeUtf8`);
* Python dictionaries whose keys may be absent are structures with `Option`
  fields (`none` = key absent);
* the network transport (pycurl) is external: one call to `query` consumes a
  list of `AttemptOutcome`s, one per loop iteration, each saying what the
  transport did on that attempt (raised a transport error, raised some other
  exception, or completed with a status code), together with the bytes the
  transport wrote into the shared output buffer during that attempt;
* a Python exception that a function lets escape is modelled with
  `Except String`.
-/

namespace Poopak

/-! ## Configuration constants
`config_crawler.py` and `config/constants.py`. -/

def max_try_count : Nat := 3

def MAX_RETRY_SENTINEL : Nat := 9999

def HTTP_OK : Nat := 200

def HTTP_SERVICE_UNAVAILABLE : Nat := 503

/-- The keys of the `http_codes` table in `config_crawler.py`. -/
def http_codes : List Nat :=
  [200, 201, 202, 203, 204, 400, 401, 402, 403, 404,
   500, 501, 502, 503, 301, 302, 303, 304]

/-! ## Fetcher (`curl.py`) -/

/-- What the pycurl transport does on one iteration of the retry loop of
`query`, together with the bytes it wrote into the shared `output` buffer
before finishing or raising. -/
inductive AttemptOutcome where
  /-- `query.perform()` raised `pycurl.error` after writing `written`. -/
  | transportError (written : List Nat)
  /-- some other exception was raised after writing `written`
  (the generic `except Exception` branch). -/
  | otherError (written : List Nat)
  /-- `query.perform()` completed; `getinfo(HTTP_CODE)` returned `code`. -/
  | curlOk (code : Nat) (written : List Nat)
deriving DecidableEq, Repr

/-- UTF-8 decoding of the accumulated buffer (`response.decode("utf8")`),
modelled as succeeding exactly on ASCII bytes. -/
def decodeUtf8 (bs : List Nat) : Option String :=
  if bs.all (fun b => b < 128) then some (String.mk (bs.map Char.ofNat)) else none

/-- The `resp` dictionary built by `query`: `url` and `status` and `seen_time`
are always set when `resp` is not `None`; the `html` key is present only in the
200 branch. -/
structure FetchResult where
  url : String
  html : Option String
  status : Nat
  seen_time : Nat
deriving DecidableEq, Repr

/-- The `while try_count < max_try_count` loop of `query`, one constructor of
`attempts` consumed per iteration.  State: `try_count`, the shared output
buffer `buf` (never reset between iterations), and the current `resp`.
Returns `some (resp, remaining)` when the loop condition fails (`remaining`
being the attempts that were never performed), and `none` when the supplied
attempt list is exhausted while the loop would still continue. -/
def queryLoop (url : String) (seen_time : Nat) :
    List AttemptOutcome → Nat → List Nat → Option FetchResult →
    Option (Option FetchResult × List AttemptOutcome)
  | attempts, try_count, buf, resp =>
    if try_count < max_try_count then
      match attempts with
      | [] => none
      | a :: rest =>
        match a with
        | .transportError w =>
            -- `except pycurl.error`: try_count += 1, resp := 503, no html
            queryLoop url seen_time rest (try_count + 1) (buf ++ w)
              (some ⟨url, none, HTTP_SERVICE_UNAVAILABLE, seen_time⟩)
        | .otherError w =>
            -- `except Exception`: try_count += 1, resp := 503, no html
            queryLoop url seen_time rest (try_count + 1) (buf ++ w)
              (some ⟨url, none, HTTP_SERVICE_UNAVAILABLE, seen_time⟩)
        | .curlOk code w =>
            match decodeUtf8 (buf ++ w) with
            | none =>
                -- `except UnicodeDecodeError`: resp := 503, try_count := sentinel
                queryLoop url seen_time rest MAX_RETRY_SENTINEL (buf ++ w)
                  (some ⟨url, none, HTTP_SERVICE_UNAVAILABLE, seen_time⟩)
            | some html =>
                if code ∈ http_codes then
                  if code = HTTP_OK then
                    queryLoop url seen_time rest MAX_RETRY_SENTINEL (buf ++ w)
                      (some ⟨url, some html, HTTP_OK, seen_time⟩)
                  else
                    queryLoop url seen_time rest MAX_RETRY_SENTINEL (buf ++ w)
                      (some ⟨url, none, code, seen_time⟩)
                else
                  -- http_code not in the table: nothing in the loop body runs
                  -- after the `if`, try_count and resp are left unchanged
                  queryLoop url seen_time rest try_count (buf ++ w) resp
    else
      some (resp, attempts)

/-- `query(url)` of `curl.py`: run the retry loop from the initial state
(`try_count = 0`, empty shared buffer, `resp = None`). -/
def query (url : String) (seen_time : Nat) (attempts : List AttemptOutcome) :
    Option (Option FetchResult × List AttemptOutcome) :=
  queryLoop url seen_time attempts 0 [] none

/-! ## CPython `urllib.parse` model

`html_extractors.py` resolves and rebuilds URLs through the standard library
`urlparse` / `urlunparse`.  These are external to the repository, so they are
embedded here following CPython's `urlsplit` / `urlunsplit`: scheme split at
the first `:` when the head is a valid scheme, netloc after a leading `//` up
to the next `/`, `?` or `#`, then fragment at the first `#`, then query at the
first `?`. -/

/-- Split a character list at the first occurrence of `c` (exclusive). -/
def splitAtFirst (c : Char) : List Char → Option (List Char × List Char)
  | [] => none
  | x :: xs =>
    if x = c then some ([], xs)
    else
      match splitAtFirst c xs with
      | some (a, b) => some (x :: a, b)
      | none => none

/-- Does `needle` occur at the head of `hay`? -/
def isSeqHeadOf : List Char → List Char → Bool
  | [], _ => true
  | _ :: _, [] => false
  | n :: ns, h :: hs => n = h && isSeqHeadOf ns hs

/-- Does `needle` occur anywhere inside `hay`?  (Python `needle in hay`.) -/
def occursIn (needle : List Char) : List Char → Bool
  | [] => needle.isEmpty
  | h :: hs => isSeqHeadOf needle (h :: hs) || occursIn needle hs

/-- Python `needle in hay` on strings. -/
def strContains (hay needle : String) : Bool := occursIn needle.data hay.data

/-- Python `s.startswith(pre)`. -/
def strStarts (s pre : String) : Bool := isSeqHeadOf pre.data s.data

/-- CPython `scheme_chars`: letters, digits, `+`, `-`, `.`. -/
def schemeChar (c : Char) : Bool :=
  c.isAlpha || c.isDigit || c = '+' || c = '-' || c = '.'

/-- Result of `urlparse` (the `params` component is dropped: every call site
in the source passes `""` for it and none of the parsed inputs contain `;`). -/
structure UrlParts where
  scheme : String
  netloc : String
  path : String
  query : String
  fragment : String
deriving DecidableEq, Repr

/-- Characters ending a netloc: `/`, `?` or `#`. -/
def netlocEnd (c : Char) : Bool := c = '/' || c = '?' || c = '#'

/-- Longest head of the list whose characters all satisfy `keep`, with the
remainder. -/
def takeRun (keep : Char → Bool) : List Char → List Char × List Char
  | [] => ([], [])
  | c :: cs =>
    if keep c then
      let (r, rest) := takeRun keep cs
      (c :: r, rest)
    else ([], c :: cs)

/-- CPython `urlparse` on a string. -/
def pyUrlparse (url : String) : UrlParts :=
  let l := url.data
  -- scheme: split at the first ':' when the head is a nonempty valid scheme
  let (scheme, rest) :=
    match splitAtFirst ':' l with
    | some (pre, post) =>
      if pre ≠ [] && (pre.headD ' ').isAlpha && pre.all schemeChar then
        (pre.map Char.toLower, post)
      else ([], l)
    | none => ([], l)
  -- netloc: after a leading "//", up to the next '/', '?' or '#'
  let (netloc, rest) :=
    match rest with
    | '/' :: '/' :: tail =>
      let (n, r) := takeRun (fun c => !netlocEnd c) tail
      (n, r)
    | _ => ([], rest)
  -- fragment: after the first '#'
  let (rest, fragment) :=
    match splitAtFirst '#' rest with
    | some (a, b) => (a, b)
    | none => (rest, [])
  -- query: after the first '?'
  let (path, q) :=
    match splitAtFirst '?' rest with
    | some (a, b) => (a, b)
    | none => (rest, [])
  ⟨String.mk scheme, String.mk netloc, String.mk path, String.mk q, String.mk fragment⟩

/-- CPython `urlunparse` restricted to the source's call shape
`urlunparse((scheme, netloc, path, "", query, ""))` — empty params, empty
fragment (this is `urlunsplit` with a `""` fragment). -/
def pyUrlunparse (scheme netloc path query : String) : String :=
  let url :=
    if netloc ≠ "" || (path ≠ "" && strStarts path "//") then
      let p := if path ≠ "" && !strStarts path "/" then "/" ++ path else path
      "//" ++ netloc ++ p
    else path
  let url := if scheme ≠ "" then scheme ++ ":" ++ url else url
  if query ≠ "" then url ++ "?" ++ query else url

/-! ## Extractor (`html_extractors.py`)

`BeautifulSoup(html, "lxml")` is external; a `Page` is the relevant part of
its output for one HTML document: the `href` attribute of each `<a>` element
(`None` when the anchor has no `href`), the `src` attribute of each `<img>`,
and the text of `soup.title` / `soup.body` (`none` when the element is
absent, in which case the accessor's `AttributeError` handler fires). -/

structure Page where
  anchors : List (Option String)
  imgs : List (Option String)
  titleText : Option String
  bodyText : Option String
deriving DecidableEq, Repr

/-- One entry of the list returned by `Extractor.get_links`. -/
structure Link where
  url : String
  is_onion : Bool
  in_scope : Bool
deriving DecidableEq, Repr

/-- The `Extractor` object: constructed from `(base_url, html)`; `page` is
what `BeautifulSoup` produced from `html`. -/
structure Extractor where
  base_url : String
  html : String
  page : Page
deriving DecidableEq, Repr

/-- The body of the `for link in self.soup.find_all("a")` loop in
`Extractor.get_links`, for one anchor.

For an anchor with no `href` attribute, `link.get("href")` is `None`;
CPython's `urlparse(None)` coerces to a bytes result with all components
`b""`, and the membership test `".onion" in parsed_href.netloc` then raises
`TypeError` (a `str` needle against a `bytes` haystack), which `get_links`
does not catch. -/
def classifyAnchor (base : UrlParts) (href? : Option String) : Except String Link :=
  match href? with
  | none => .error "TypeError: a bytes-like object is required, not str"
  | some href0 =>
    let ph := pyUrlparse href0
    -- is_onion = True if ".onion" in parsed_href.netloc else False
    let isOn := strContains ph.netloc ".onion"
    -- if parsed_href.netloc != "": href = urlunparse(ph.scheme, ph.netloc, ph.path, "", ph.query, "")
    let href1 :=
      if ph.netloc ≠ "" then pyUrlunparse ph.scheme ph.netloc ph.path ph.query
      else href0
    -- if parsed_href.netloc != "" and parsed_href.netloc == parsed_url.netloc
    let (sc2, href2) :=
      if ph.netloc ≠ "" && ph.netloc = base.netloc then
        (true, pyUrlunparse base.scheme base.netloc ph.path ph.query)
      else (false, href1)
    -- if href.startswith("/") or href.startswith("?")
    let (sc3, href3) :=
      if strStarts href2 "/" || strStarts href2 "?" then
        (true, pyUrlunparse base.scheme base.netloc ph.path ph.query)
      else (sc2, href2)
    -- if href.startswith("#")
    let (sc4, href4) :=
      if strStarts href3 "#" then
        (true, pyUrlunparse base.scheme base.netloc ph.path ph.query)
      else (sc3, href3)
    .ok ⟨href4, isOn, sc4⟩

/-- The `for` loop accumulating `_urls`: apply `f` to each element in order,
propagating the first raised exception. -/
def mapExcept {α β : Type} (f : α → Except String β) : List α → Except String (List β)
  | [] => .ok []
  | a :: l => do
    let b ← f a
    let bs ← mapExcept f l
    .ok (b :: bs)

/-- `Extractor.get_links`: classify every anchor; a raised `TypeError`
aborts the whole call (there is no handler in `get_links`). -/
def getLinks (e : Extractor) : Except String (List Link) :=
  mapExcept (classifyAnchor (pyUrlparse e.base_url)) e.page.anchors

/-- The body of the `for link in self.soup.find_all("img")` loop in
`Extractor.get_img_links`, for one `<img>`.  For an `<img>` with no `src`,
`urlparse(None)` again yields the all-`b""` bytes result; `b"" != ""` is
`True` in Python, so the rebuild runs on bytes components and the later
`src.startswith("/")` raises `TypeError` (bytes receiver, `str` argument),
uncaught. -/
def resolveImg (base : UrlParts) (src? : Option String) : Except String String :=
  match src? with
  | none => .error "TypeError: startswith first arg must be bytes"
  | some src0 =>
    let ps := pyUrlparse src0
    let src1 :=
      if ps.netloc ≠ "" then pyUrlunparse ps.scheme ps.netloc ps.path ps.query
      else src0
    let src2 :=
      if ps.netloc ≠ "" && ps.netloc = base.netloc then
        pyUrlunparse base.scheme base.netloc ps.path ps.query
      else src1
    let src3 :=
      if strStarts src2 "/" || strStarts src2 "?" then
        pyUrlunparse base.scheme base.netloc ps.path ps.query
      else src2
    .ok src3

/-- `Extractor.get_img_links`. -/
def getImgLinks (e : Extractor) : Except String (List String) :=
  mapExcept (resolveImg (pyUrlparse e.base_url)) e.page.imgs

/-- `Extractor.get_body`: `soup.body.get_text(" ", strip=True)` with the
`AttributeError` (no `<body>`) handler returning `None`. -/
def getBody (e : Extractor) : Option String := e.page.bodyText

/-- `Extractor.get_title`: `soup.title.get_text()` with the `AttributeError`
(no `<title>`) handler returning `None`. -/
def getTitle (e : Extractor) : Option String := e.page.titleText

/-! ### The regex accessors

`get_emails`, `get_bitcoin_addrs`, `get_eth_addrs`, `get_monero_addrs` are
`re.findall` passes.  The patterns are of the simple shape "a few leading
character classes followed by a bounded greedy run of one class", for which
Python's leftmost, non-overlapping, greedy `findall` semantics reduce to the
scanners below (the repeated class never contains the characters that end a
match, so no backtracking is observable). -/

/-- `\w` (ASCII), `.` and `-`: one character of `[\w\.-]`. -/
def emailChar (c : Char) : Bool := c.isAlphanum || c = '_' || c = '.' || c = '-'

/-- `[a-km-zA-HJ-NP-Z1-9]` (the Base58-style class of the Bitcoin and Monero
patterns). -/
def base58Char (c : Char) : Bool :=
  (c.isLower && c ≠ 'l') || (c.isUpper && c ≠ 'I' && c ≠ 'O') || (c.isDigit && c ≠ '0')

/-- `[a-fA-F0-9]`. -/
def hexChar (c : Char) : Bool :=
  c.isDigit || ('a' ≤ c && c ≤ 'f') || ('A' ≤ c && c ≤ 'F')

/-- `[0-9AB]`. -/
def moneroSecond (c : Char) : Bool := c.isDigit || c = 'A' || c = 'B'

/-- Match a fixed sequence of character classes at the head of the input. -/
def matchClasses : List (Char → Bool) → List Char → Option (List Char × List Char)
  | [], rest => some ([], rest)
  | _ :: _, [] => none
  | p :: ps, c :: cs =>
    if p c then (matchClasses ps cs).map (fun m => (c :: m.1, m.2)) else none

/-- `re.findall` for a pattern `lead₀lead₁…body{lo,hi}`: scan left to right;
at each position try the leading classes then a greedy run of `body` capped
at `hi`; a match needs at least `lo` run characters and scanning resumes
after it (non-overlapping), otherwise scanning advances one character.
`fuel` bounds the recursion (callers pass the input length). -/
def reFindall (lead : List (Char → Bool)) (body : Char → Bool) (lo hi : Nat) :
    Nat → List Char → List String
  | 0, _ => []
  | _ + 1, [] => []
  | fuel + 1, c :: cs =>
    match matchClasses lead (c :: cs) with
    | some (m, rest0) =>
      let (run, rest) := takeRun body rest0
      if lo ≤ run.length then
        String.mk (m ++ run.take hi) :: reFindall lead body lo hi fuel (run.drop hi ++ rest)
      else reFindall lead body lo hi fuel cs
    | none => reFindall lead body lo hi fuel cs

/-- `re.findall` for `[\w\.-]+@[\w\.-]+`: a maximal nonempty run of
`emailChar`, an `@`, and a maximal nonempty run of `emailChar`. -/
def emailFindall : Nat → List Char → List String
  | 0, _ => []
  | _ + 1, [] => []
  | fuel + 1, c :: cs =>
    if emailChar c then
      let (run1, rest1) := takeRun emailChar (c :: cs)
      match rest1 with
      | '@' :: rest2 =>
        let (run2, rest3) := takeRun emailChar rest2
        if run2.isEmpty then emailFindall fuel cs
        else String.mk (run1 ++ '@' :: run2) :: emailFindall fuel rest3
      | _ => emailFindall fuel cs
    else emailFindall fuel cs

/-- `Extractor.get_emails`: `re.findall(r"[\w\.-]+@[\w\.-]+", self.html)`
(the `except` branch is unreachable: `findall` on a string does not raise). -/
def getEmails (e : Extractor) : Option (List String) :=
  some (emailFindall e.html.data.length e.html.data)

/-- `Extractor.get_bitcoin_addrs`:
`re.findall("[13][a-km-zA-HJ-NP-Z1-9]{25,34}", body_text)` when
`self.get_body()` is truthy (non-`None` and nonempty), else `None`. -/
def getBitcoinAddrs (e : Extractor) : Option (List String) :=
  match getBody e with
  | some b =>
    if b.isEmpty then none
    else some (reFindall [fun c => c = '1' || c = '3'] base58Char 25 34 b.data.length b.data)
  | none => none

/-- `Extractor.get_eth_addrs`: `re.findall("0x[a-fA-F0-9]{40}", body_text)`
when the body text is truthy, else `None`. -/
def getEthAddrs (e : Extractor) : Option (List String) :=
  match getBody e with
  | some b =>
    if b.isEmpty then none
    else some (reFindall [fun c => c = '0', fun c => c = 'x'] hexChar 40 40 b.data.length b.data)
  | none => none

/-- `Extractor.get_monero_addrs`:
`re.findall("4[0-9AB][1-9A-HJ-NP-Za-km-z]{93}", body_text)` when the body
text is truthy, else `None`. -/
def getMoneroAddrs (e : Extractor) : Option (List String) :=
  match getBody e with
  | some b =>
    if b.isEmpty then none
    else some (reFindall [fun c => c = '4', moneroSecond] base58Char 93 93 b.data.length b.data)
  | none => none

/-! ## Document store (`data_storage.py` over `document_repository.py`)

MongoDB is external; a `Store` is a list of persisted documents (insertion
order) with the next `_id` to assign.  `update_one({"url": url}, {"$set":
data})` updates the first matching document, setting exactly the keys present
in `data`; `find_one({"url": url})` returns the first match; ids are `Nat`
(standing for the stringified `ObjectId`, which is always truthy). -/

/-- The keys added by `Spider._extract_html_content` (all present together
whenever the `"html"` key is in the response). -/
structure ExtractedFields where
  html : String
  body : Option String
  title : Option String
  emails : Option (List String)
  links : List Link
  images : List String
  btc : Option (List String)
  monero : Option (List String)
  eth : Option (List String)
deriving DecidableEq, Repr

/-- The `document_data` dictionary built by the Spider.  `flags` models the
presence of the `is_onion`/`in_scope` keys (added only on the full-document
path), `extracted` the presence of the HTML-content keys, `capture_id` the
presence of the `capture_id` key. -/
structure DocData where
  netloc : String
  url : String
  status : Nat
  seen_time : Nat
  parent : Option Nat
  flags : Option (Bool × Bool)
  extracted : Option ExtractedFields
  capture_id : Option String
deriving DecidableEq, Repr

/-- One persisted document: its `_id` and its current fields. -/
structure StoredDoc where
  id : Nat
  data : DocData
deriving DecidableEq, Repr

/-- The `documents` collection. -/
structure Store where
  docs : List StoredDoc
  nextId : Nat
deriving DecidableEq, Repr

/-- `DataStorage.is_url_exist` (`count({"url": url}) > 0`). -/
def isUrlExist (st : Store) (url : String) : Bool :=
  st.docs.any (fun d => d.data.url = url)

/-- `DataStorage.get_document_by_url` (`find_one({"url": url})`). -/
def getDocByUrl (st : Store) (url : String) : Option StoredDoc :=
  st.docs.find? (fun d => d.data.url = url)

/-- `DataStorage.add_crawled_url` (`insert_one`): returns the new id and the
extended store. -/
def addCrawledUrl (st : Store) (d : DocData) : Nat × Store :=
  (st.nextId, ⟨st.docs ++ [⟨st.nextId, d⟩], st.nextId + 1⟩)

/-- `$set` semantics: keys present in the new payload overwrite, absent keys
keep their stored value.  The base keys (`netloc`, `url`, `status`,
`seen_time`, `parent`) are present in every payload the Spider builds. -/
def mergeDoc (old new : DocData) : DocData :=
  { new with
    flags := new.flags <|> old.flags,
    extracted := new.extracted <|> old.extracted,
    capture_id := new.capture_id <|> old.capture_id }

/-- `$set` on the first document matching `url`. -/
def updateFirstDoc (url : String) (d : DocData) : List StoredDoc → List StoredDoc
  | [] => []
  | sd :: rest =>
    if sd.data.url = url then ⟨sd.id, mergeDoc sd.data d⟩ :: rest
    else sd :: updateFirstDoc url d rest

/-- `DataStorage.update_crawled_url` (`update_one({"url": url}, {"$set": data})`). -/
def updateByUrl (st : Store) (url : String) (d : DocData) : Store :=
  ⟨updateFirstDoc url d st.docs, st.nextId⟩

/-! ## Crawl jobs and the Spider (`spider.py`) -/

/-- The argument tuple of one `crawler_queue.enqueue_call(func=crawl_with_depth,
args=(link["url"], parent_id, depth_level, link["is_onion"], link["in_scope"]))`:
exactly five positional arguments. -/
structure CrawlJob where
  url : String
  parent_id : Nat
  depth_level : Nat
  is_onion : Bool
  in_scope : Bool
deriving DecidableEq, Repr

/-- The full parameter list of `crawl_with_depth` (with its declared
defaults `use_proxy=True`, `re_crawl=True`). -/
structure CrawlArgs where
  target : String
  parent : Option Nat
  depth : Nat
  is_onion : Bool
  in_scope : Bool
  use_proxy : Bool
  re_crawl : Bool
deriving DecidableEq, Repr

/-- Dequeuing a child job calls `crawl_with_depth` with the five stored
positional arguments; Python fills `use_proxy` and `re_crawl` from the
declared defaults (`True`, `True`). -/
def crawlWithDepthOfJob (j : CrawlJob) : CrawlArgs :=
  ⟨j.url, some j.parent_id, j.depth_level, j.is_onion, j.in_scope, true, true⟩

/-- The `Spider` object after `__init__` ran.  `response` is what
`query(base_url)` returned; `page` is the `BeautifulSoup` parse of
`response["html"]` (external, only consulted when the key is present);
`captureOk` records whether the external `get_screenshot` call succeeds and
`captureUuid` the `uuid.uuid4().hex` value drawn for it. -/
structure Spider where
  base_url : String
  is_onion : Bool
  in_scope : Bool
  depth : Nat
  proxy : Bool
  re_crawl : Bool
  parent : Option Nat
  response : FetchResult
  page : Page
  /-- the boolean `get_screenshot` returns (success/failure of the external
  capture) — `_capture_screenshot` discards it -/
  captureOk : Bool
  captureUuid : String
deriving DecidableEq, Repr

/-- `crawl_with_depth` constructs the Spider with `proxy := use_proxy` and
`re_crawl := re_crawl` from its (possibly defaulted) parameters. -/
def spiderOfArgs (a : CrawlArgs) (resp : FetchResult) (page : Page)
    (captureOk : Bool) (captureUuid : String) : Spider :=
  ⟨a.target, a.is_onion, a.in_scope, a.depth, a.use_proxy, a.re_crawl, a.parent,
   resp, page, captureOk, captureUuid⟩

/-- `self.netloc = urlparse(self.base_url).netloc`. -/
def Spider.netloc (s : Spider) : String := (pyUrlparse s.base_url).netloc

/-- `Spider._build_base_document_data`. -/
def buildBaseDocumentData (s : Spider) : DocData :=
  ⟨s.netloc, s.base_url, s.response.status, s.response.seen_time, s.parent,
   none, none, none⟩

/-- `Spider._capture_screenshot`: draws `uuid.uuid4().hex`, calls
`get_screenshot` and returns the uuid.  `get_screenshot` (screenshot.py)
catches IOError and every other exception and returns `False` instead of
raising, and `_capture_screenshot` discards that return value, so its own
`except → None` handler is unreachable for capture failures: the uuid is
returned whether the capture succeeded or not. -/
def captureScreenshot (s : Spider) : Option String :=
  some s.captureUuid

/-- `Spider._extract_html_content` for an extractor over `htmlStr`.  The dict
literal evaluates `get_links` before `get_img_links`; an uncaught `TypeError`
from either aborts the whole call. -/
def extractHtmlContent (e : Extractor) (htmlStr : String) :
    Except String ExtractedFields := do
  let links ← getLinks e
  let images ← getImgLinks e
  pure ⟨htmlStr, getBody e, getTitle e, getEmails e, links, images,
        getBitcoinAddrs e, getMoneroAddrs e, getEthAddrs e⟩

/-- `Spider._build_full_document_data`: base data plus the crawl flags; when
the `"html"` key is in the response, the extracted content, and — for a 200
status — the `capture_id` key if and only if `_capture_screenshot` returned a
truthy id. -/
def buildFullDocumentData (s : Spider) : Except String DocData := do
  let base := { buildBaseDocumentData s with flags := some (s.is_onion, s.in_scope) }
  match s.response.html with
  | some h =>
    let ex ← extractHtmlContent ⟨s.base_url, h, s.page⟩ h
    let cap := if s.response.status = HTTP_OK then captureScreenshot s else none
    pure { base with extracted := some ex, capture_id := cap }
  | none => pure base

/-- `Spider._save_or_update_document`: check-then-act upsert.  On an existing
URL with `re_crawl` enabled it updates and returns the existing document's
id; with `re_crawl` disabled it writes nothing and returns `None`; on a new
URL it inserts and returns the new id. -/
def saveOrUpdateDocument (s : Spider) (st : Store) (d : DocData) :
    Option Nat × Store :=
  if isUrlExist st s.base_url then
    if s.re_crawl then
      let st' := updateByUrl st s.base_url d
      ((getDocByUrl st' s.base_url).map (fun sd => sd.id), st')
    else (none, st)
  else
    let (id, st') := addCrawledUrl st d
    (some id, st')

/-- `Spider._enqueue_child_links`: one job per link per `depth_level in
range(self.depth)`, appended to the queue in loop order.  (In the embedding
`enqueue_call` always succeeds; the per-link handler only matters for queue
failures, which are external.) -/
def enqueueChildLinks (depth : Nat) (links : List Link) (parentId : Nat)
    (queue : List CrawlJob) : List CrawlJob :=
  if links.isEmpty || depth = 0 then queue
  else
    queue ++ ((List.range depth).map (fun d =>
      links.map (fun l => CrawlJob.mk l.url parentId d l.is_onion l.in_scope))).flatten

/-- `Spider.process_crawl`: the orchestrator body.  Returns the document id
(or `None`), the store and the queue after the invocation; an uncaught
exception from extraction escapes as `.error`. -/
def processCrawl (s : Spider) (st : Store) (queue : List CrawlJob) :
    Except String (Option Nat × Store × List CrawlJob) :=
  if s.response.status = 0 then
    -- `if not self.response.get("status")`: falsy status, minimal document
    let (pid, st') := saveOrUpdateDocument s st (buildBaseDocumentData s)
    .ok (pid, st', queue)
  else do
    let docData ← buildFullDocumentData s
    let (pid, st') := saveOrUpdateDocument s st docData
    match pid, docData.extracted with
    | some p, some ex =>
      -- `if parent_id and "links" in document_data and self.depth > 0`
      if s.depth > 0 then .ok (some p, st', enqueueChildLinks s.depth ex.links p queue)
      else .ok (some p, st', queue)
    | some p, none => .ok (some p, st', queue)
    | none, _ => .ok (none, st', queue)

/-- The `document_data` payload `process_crawl` hands to
`_save_or_update_document`: the minimal document on a falsy status, the full
document otherwise. -/
def savedDocData (s : Spider) : Except String DocData :=
  if s.response.status = 0 then .ok (buildBaseDocumentData s)
  else buildFullDocumentData s

/-- The `html` key of a document payload (inside the extracted content). -/
def docHtml (d : DocData) : Option String := d.extracted.map (fun ex => ex.html)

instance {ε α : Type} [DecidableEq ε] [DecidableEq α] : DecidableEq (Except ε α) :=
  fun a b =>
    match a, b with
    | .ok x, .ok y => if h : x = y then .isTrue (by rw [h]) else .isFalse (by simp [h])
    | .error x, .error y => if h : x = y then .isTrue (by rw [h]) else .isFalse (by simp [h])
    | .ok _, .error _ => .isFalse (by simp)
    | .error _, .ok _ => .isFalse (by simp)

/-! ## Concrete fixtures

Small concrete inputs used by witnesses and counterexamples. -/

/-- A parsed page with three same-host relative anchors. -/
def fxPage : Page := ⟨[some "/1", some "/2", some "/3"], [], none, none⟩

/-- A successful fetch of `http://e.onion/` (status 200, html `"x"`). -/
def fxResp : FetchResult := ⟨"http://e.onion/", some "x", 200, 5⟩

/-- A depth-2 spider over `fxResp`/`fxPage` (proxy and re-crawl enabled,
screenshot capture succeeding with uuid `"cap"`). -/
def fxSpider : Spider :=
  ⟨"http://e.onion/", true, true, 2, true, true, none, fxResp, fxPage, true, "cap"⟩

/-- The links `fxPage`'s anchors classify to. -/
def fxLinks : List Link :=
  [⟨"http://e.onion/1", false, true⟩, ⟨"http://e.onion/2", false, true⟩,
   ⟨"http://e.onion/3", false, true⟩]

/-- The extracted-content fields for `fxSpider`. -/
def fxExtracted : ExtractedFields :=
  ⟨"x", none, none, some [], fxLinks, [], none, none, none⟩

/-- The full document payload `fxSpider` builds. -/
def fxDocSaved : DocData :=
  ⟨"e.onion", "http://e.onion/", 200, 5, none, some (true, true),
   some fxExtracted, some "cap"⟩

/-- A minimal previously-persisted document for `http://e.onion/`. -/
def fxOldDoc : DocData :=
  ⟨"e.onion", "http://e.onion/", 200, 1, none, none, none, none⟩

/-- A store already holding `http://e.onion/` under id 7. -/
def fxStoreExisting : Store := ⟨[⟨7, fxOldDoc⟩], 8⟩

/-- A spider for `http://e.onion/` with `re_crawl = False`. -/
def fxSpiderNoRecrawl : Spider :=
  ⟨"http://e.onion/", true, true, 0, true, false, none, fxResp, fxPage, true, "cap"⟩

/-- A spider whose page contains an anchor with no `href` attribute. -/
def fxSpiderNoHref : Spider :=
  ⟨"http://e.onion/", true, true, 0, true, true, none, fxResp,
   ⟨[some "/ok", none], [], none, none⟩, true, "cap"⟩

/-- A status-200 spider whose screenshot capture call fails. -/
def fxSpiderCaptureFail : Spider :=
  ⟨"http://e.onion/", true, true, 0, true, true, none, fxResp, fxPage, false, "cap"⟩

/-- A minimal 200 fetch result (html `"h"`, as produced by
`query "u" 3 [.curlOk 200 [104]]`). -/
def fxRespMini : FetchResult := ⟨"u", some "h", 200, 3⟩

/-- A spider over `fxRespMini` with an empty page. -/
def fxSpiderMini : Spider :=
  ⟨"u", true, true, 0, true, true, none, fxRespMini, ⟨[], [], none, none⟩, true, "cap"⟩

/-- The document payload `fxSpiderMini` builds. -/
def fxDocMini : DocData :=
  ⟨"", "u", 200, 3, none, some (true, true),
   some ⟨"h", none, none, some [], [], [], none, none, none⟩, some "cap"⟩

/-! # Theorems -/

/-- Helper: on an existing URL with re-crawl disabled,
`_save_or_update_document` writes nothing and returns `None`. -/
theorem saveOrUpdate_skip (s : Spider) (st : Store) (d : DocData)
    (hex : isUrlExist st s.base_url = true) (hrc : s.re_crawl = false) :
    saveOrUpdateDocument s st d = (none, st) := by
  simp [saveOrUpdateDocument, hex, hrc]

/-- Helper: the retry loop exits with the current `resp` (performing no
further attempts) as soon as `try_count` fails the loop condition. -/
theorem queryLoop_exit (url : String) (t : Nat) (attempts : List AttemptOutcome)
    (tc : Nat) (buf : List Nat) (resp : Option FetchResult)
    (h : ¬ tc < max_try_count) :
    queryLoop url t attempts tc buf resp = some (resp, attempts) := by
  rw [queryLoop.eq_def]
  simp [h]

/-- C1: a crawl invocation with `depth = 2` whose page yields exactly 3
extracted links, and whose document is persisted under identity `p`, enqueues
exactly 6 child jobs — each link once with `depth_level = 0` and once with
`depth_level = 1`, in that order — and every child job carries the persisted
document's identity `p` as its `parent_id`. -/
theorem fanout_bound :
    ∀ (s : Spider) (st : Store) (q : List CrawlJob) (d : DocData)
      (ex : ExtractedFields) (a b c : Link) (p : Nat) (st' : Store),
      s.depth = 2 →
      s.response.status ≠ 0 →
      buildFullDocumentData s = .ok d →
      d.extracted = some ex →
      ex.links = [a, b, c] →
      saveOrUpdateDocument s st d = (some p, st') →
      processCrawl s st q =
        .ok (some p, st',
          q ++ [⟨a.url, p, 0, a.is_onion, a.in_scope⟩, ⟨b.url, p, 0, b.is_onion, b.in_scope⟩,
                ⟨c.url, p, 0, c.is_onion, c.in_scope⟩, ⟨a.url, p, 1, a.is_onion, a.in_scope⟩,
                ⟨b.url, p, 1, b.is_onion, b.in_scope⟩, ⟨c.url, p, 1, c.is_onion, c.in_scope⟩]) := by
  intro s st q d ex a b c p st' h1 h2 h3 h4 h5 h6
  simp only [processCrawl, h2, if_neg, h3, Bind.bind, Except.bind, h4, h6, h1]
  simp [enqueueChildLinks, h5, List.range_succ]

/-- C1 witness: the depth-2 fixture spider over a fresh store persists its
document under id 0 and enqueues its three links at depth levels 0 and 1 —
six jobs, all with `parent_id = 0`. -/
theorem fanout_bound_witness :
    processCrawl fxSpider ⟨[], 0⟩ [] =
      .ok (some 0, ⟨[⟨0, fxDocSaved⟩], 1⟩,
        [] ++ [⟨"http://e.onion/1", 0, 0, false, true⟩, ⟨"http://e.onion/2", 0, 0, false, true⟩,
               ⟨"http://e.onion/3", 0, 0, false, true⟩, ⟨"http://e.onion/1", 0, 1, false, true⟩,
               ⟨"http://e.onion/2", 0, 1, false, true⟩, ⟨"http://e.onion/3", 0, 1, false, true⟩]) :=
  fanout_bound fxSpider ⟨[], 0⟩ [] fxDocSaved fxExtracted
    ⟨"http://e.onion/1", false, true⟩ ⟨"http://e.onion/2", false, true⟩
    ⟨"http://e.onion/3", false, true⟩ 0 ⟨[⟨0, fxDocSaved⟩], 1⟩
    rfl (by decide) (by decide) rfl rfl (by decide)

/-- C2: when the transport raises a transport error on every attempt, `query`
returns after exactly the configured maximum attempt count
(`max_try_count = 3`) — the attempts beyond the third are never performed —
with a result whose status is 503 and which carries no `html`, and it returns
normally (a value, never an exception) to its caller. -/
theorem fetcher_retry_bound :
    max_try_count = 3 ∧
    ∀ (url : String) (t : Nat) (w1 w2 w3 : List Nat) (rest : List AttemptOutcome),
      query url t (.transportError w1 :: .transportError w2 :: .transportError w3 :: rest) =
        some (some ⟨url, none, HTTP_SERVICE_UNAVAILABLE, t⟩, rest) :=
  ⟨rfl, fun url t w1 w2 w3 rest => by
    simp [query, queryLoop]
    exact queryLoop_exit url t rest 3 _ _ (by decide)⟩

/-- C3: refutation of termination for status codes outside the `http_codes`
table.  When every connection succeeds with HTTP 206 (a code the table does
not list) and an empty body, the retry loop never increments `try_count` and
never sets `resp`, so `query` does not return within any number `n` of loop
iterations: the code loops (and re-fetches) forever instead of returning
immediately after the first attempt. -/
theorem fetcher_unknown_status_loops_forever :
    ∀ (url : String) (t : Nat) (n : Nat),
      query url t (List.replicate n (.curlOk 206 [])) = none := by
  intro url t n
  induction n with
  | zero => rfl
  | succ k ih => exact ih

/-- C4 counterexample: with `http://e.onion/` already persisted under id 7
and `re_crawl = False`, a second crawl invocation of that URL writes nothing
but returns `None` — not the existing document's identity as the claim
states. -/
theorem recrawl_false_counterexample :
    isUrlExist fxStoreExisting "http://e.onion/" = true ∧
    (getDocByUrl fxStoreExisting "http://e.onion/").map (fun sd => sd.id) = some 7 ∧
    processCrawl fxSpiderNoRecrawl fxStoreExisting [] = .ok (none, fxStoreExisting, []) ∧
    (Except.ok (none, fxStoreExisting, ([] : List CrawlJob))
        : Except String (Option Nat × Store × List CrawlJob)) ≠
      .ok (some 7, fxStoreExisting, []) :=
  ⟨by decide, by decide, by decide, by decide⟩

/-- C4 amended: for a URL already persisted in the store, a second crawl
invocation with `re_crawl = False` (whose extraction raises no exception)
performs no write — the store is returned unchanged — but returns `None`
rather than the existing document's identity, and enqueues nothing. -/
theorem recrawl_false_skips_write :
    ∀ (s : Spider) (st : Store) (q : List CrawlJob) (d : DocData),
      s.re_crawl = false →
      isUrlExist st s.base_url = true →
      savedDocData s = .ok d →
      processCrawl s st q = .ok (none, st, q) := by
  intro s st q d hrc hex hd
  by_cases h0 : s.response.status = 0
  · simp [processCrawl, h0, saveOrUpdate_skip s st _ hex hrc]
  · have hb : buildFullDocumentData s = .ok d := by
      simpa [savedDocData, h0] using hd
    simp [processCrawl, h0, hb, Bind.bind, Except.bind,
      saveOrUpdate_skip s st d hex hrc]

/-- C4 witness: the fixture spider with `re_crawl = False` over the store
already holding its URL leaves the store unchanged and returns `None`. -/
theorem recrawl_false_skips_write_witness :
    processCrawl fxSpiderNoRecrawl fxStoreExisting [] =
      .ok (none, fxStoreExisting, []) :=
  recrawl_false_skips_write fxSpiderNoRecrawl fxStoreExisting [] fxDocSaved
    rfl (by decide) (by decide)

/-- C5 counterexample: on base URL `http://example.onion/a/b`, the anchor
`href="#sec1"` is classified in-scope but its resolved URL is
`http://example.onion` — `urlunparse` is called with the fragment-only
reference's own (empty) path, so the base path `/a/b` is NOT preserved,
contrary to the claim. -/
theorem scope_classification_counterexample :
    getLinks ⟨"http://example.onion/a/b", "",
        ⟨[some "#sec1"], [], none, none⟩⟩ =
      .ok [⟨"http://example.onion", false, true⟩] ∧
    ("http://example.onion" : String) ≠ "http://example.onion/a/b" :=
  ⟨by decide, by decide⟩

/-- C5 amended: on base URL `http://example.onion/a/b`, `href="/c"` resolves
to `http://example.onion/c` with `in_scope = true`; `href="http://other.onion/x"`
resolves to itself with `in_scope = false` and `is_onion = true`; and
`href="#sec1"` yields `in_scope = true` with resolved URL
`http://example.onion` (the base path is dropped, not preserved). -/
theorem scope_classification :
    getLinks ⟨"http://example.onion/a/b", "",
        ⟨[some "/c", some "http://other.onion/x", some "#sec1"], [], none, none⟩⟩ =
      .ok [⟨"http://example.onion/c", false, true⟩,
           ⟨"http://other.onion/x", true, false⟩,
           ⟨"http://example.onion", false, true⟩] := by
  decide

/-- Helper: classifying a list of anchors that contains one with no `href`
attribute raises `TypeError` (the exception of the first such anchor). -/
theorem getLinks_error_of_missing_href :
    ∀ (b : UrlParts) (anchors : List (Option String)), none ∈ anchors →
      mapExcept (classifyAnchor b) anchors =
        .error "TypeError: a bytes-like object is required, not str" := by
  intro b anchors h
  induction anchors with
  | nil => cases h
  | cons a l ih =>
    cases a with
    | none => simp [mapExcept, classifyAnchor, Bind.bind, Except.bind]
    | some s =>
      have hl : none ∈ l := by
        cases h with
        | tail _ h2 => exact h2
      simp [mapExcept, ih hl, Bind.bind, Except.bind, classifyAnchor]

/-- C6 counterexample: `get_links` raises `TypeError` on a page containing an
anchor with no `href` attribute (uncaught — `urlparse(None)` yields a bytes
result and the `".onion" in netloc` test fails on it), and the exception
escapes `process_crawl`, so an extraction failure CAN abort the whole pass,
contrary to the claim. -/
theorem extractor_missing_href_counterexample :
    getLinks ⟨"http://e.onion/", "x", ⟨[some "/ok", none], [], none, none⟩⟩ =
      .error "TypeError: a bytes-like object is required, not str" ∧
    processCrawl fxSpiderNoHref ⟨[], 0⟩ [] =
      .error "TypeError: a bytes-like object is required, not str" :=
  ⟨by decide, by decide⟩

/-- C6 amended: the accessors with handlers (`get_body`, `get_title`, the
regex accessors) degrade to `None` instead of raising, but `get_links` is
not exception-safe: on any crawl whose fetched page contains an anchor with
no `href` attribute, the `TypeError` it raises escapes the orchestrator's
top-level `process_crawl` invocation. -/
theorem extraction_typeerror_escapes :
    ∀ (s : Spider) (st : Store) (q : List CrawlJob) (h : String),
      s.response.status ≠ 0 →
      s.response.html = some h →
      none ∈ s.page.anchors →
      processCrawl s st q =
        .error "TypeError: a bytes-like object is required, not str" := by
  intro s st q h h0 hh hm
  have hlinks := getLinks_error_of_missing_href (pyUrlparse s.base_url) s.page.anchors hm
  simp [processCrawl, h0, buildFullDocumentData, hh, extractHtmlContent, getLinks,
    hlinks, Bind.bind, Except.bind]

/-- C6 witness: the fixture spider whose page has an `href`-less anchor makes
`process_crawl` (over a store with `nextId = 3`) raise `TypeError`. -/
theorem extraction_typeerror_escapes_witness :
    processCrawl fxSpiderNoHref ⟨[], 3⟩ [] =
      .error "TypeError: a bytes-like object is required, not str" :=
  extraction_typeerror_escapes fxSpiderNoHref ⟨[], 3⟩ [] "x"
    (by decide) rfl (by decide)

/-- Helper: every `resp` the retry loop can exit with satisfies the
html-presence invariant — the `html` key is set exactly in the 200 branch. -/
theorem queryLoop_html_inv :
    ∀ (attempts : List AttemptOutcome) (url : String) (t tc : Nat) (buf : List Nat)
      (racc : Option FetchResult) (r : FetchResult) (rest : List AttemptOutcome),
      (∀ r0, racc = some r0 → (r0.html.isSome ↔ r0.status = HTTP_OK)) →
      queryLoop url t attempts tc buf racc = some (some r, rest) →
      (r.html.isSome ↔ r.status = HTTP_OK) := by
  intro attempts
  induction attempts with
  | nil =>
    intro url t tc buf racc r rest hinv h
    rw [queryLoop.eq_def] at h
    by_cases htc : tc < max_try_count
    · simp [htc] at h
    · simp [htc] at h
      exact hinv r h.1
  | cons a l ih =>
    intro url t tc buf racc r rest hinv h
    rw [queryLoop.eq_def] at h
    by_cases htc : tc < max_try_count
    · simp only [htc, if_true] at h
      cases a with
      | transportError w =>
        refine ih url t (tc + 1) (buf ++ w) _ r rest ?_ h
        intro r0 hr0
        cases hr0
        simp [HTTP_SERVICE_UNAVAILABLE, HTTP_OK]
      | otherError w =>
        refine ih url t (tc + 1) (buf ++ w) _ r rest ?_ h
        intro r0 hr0
        cases hr0
        simp [HTTP_SERVICE_UNAVAILABLE, HTTP_OK]
      | curlOk code w =>
        simp only at h
        cases hdec : decodeUtf8 (buf ++ w) with
        | none =>
          rw [hdec] at h
          refine ih url t MAX_RETRY_SENTINEL (buf ++ w) _ r rest ?_ h
          intro r0 hr0
          cases hr0
          simp [HTTP_SERVICE_UNAVAILABLE, HTTP_OK]
        | some html =>
          rw [hdec] at h
          by_cases hc : code ∈ http_codes
          · simp only [hc, if_true] at h
            by_cases h200 : code = HTTP_OK
            · simp only [h200, if_pos rfl] at h
              refine ih url t MAX_RETRY_SENTINEL (buf ++ w) _ r rest ?_ h
              intro r0 hr0
              cases hr0
              simp
            · simp only [if_neg h200] at h
              refine ih url t MAX_RETRY_SENTINEL (buf ++ w) _ r rest ?_ h
              intro r0 hr0
              cases hr0
              simp [h200]
          · simp only [hc, if_false] at h
            exact ih url t tc (buf ++ w) racc r rest hinv h
    · simp [htc] at h
      exact hinv r h.1

/-- C7: every result `query` returns carries the `html` key if and only if
its status is 200, and the document payload the Spider saves for such a
response carries exactly the response's `html` — present (non-null) for a
status-200 fetch, absent for every other outcome. -/
theorem html_iff_status_200 :
    ∀ (url : String) (t : Nat) (attempts rest : List AttemptOutcome) (r : FetchResult)
      (s : Spider) (d : DocData),
      query url t attempts = some (some r, rest) →
      s.response = r →
      savedDocData s = .ok d →
      ((r.html.isSome ↔ r.status = HTTP_OK) ∧ docHtml d = r.html) := by
  intro url t attempts rest r s d hq hs hd
  have hinv : r.html.isSome ↔ r.status = HTTP_OK :=
    queryLoop_html_inv attempts url t 0 [] none r rest (by intro r0 h; cases h) hq
  refine ⟨hinv, ?_⟩
  by_cases h0 : s.response.status = 0
  · have hb : d = buildBaseDocumentData s := by
      simp [savedDocData, h0] at hd
      exact hd.symm
    have hnone : r.html = none := by
      cases hr : r.html with
      | none => rfl
      | some v =>
        have h2 : r.status = HTTP_OK := hinv.mp (by simp [hr])
        rw [hs] at h0
        simp [h2, HTTP_OK] at h0
    simp [hb, buildBaseDocumentData, docHtml, hnone]
  · have hb : buildFullDocumentData s = .ok d := by
      simpa [savedDocData, h0] using hd
    cases hh : s.response.html with
    | none =>
      simp [buildFullDocumentData, hh, Bind.bind, Except.bind, pure, Except.pure,
        buildBaseDocumentData] at hb
      rw [hs] at hh
      simp [← hb, docHtml, hh]
    | some v =>
      cases hext : extractHtmlContent ⟨s.base_url, v, s.page⟩ v with
      | error e => simp [buildFullDocumentData, hh, hext, Bind.bind, Except.bind] at hb
      | ok ex =>
        have hex2 : ex.html = v := by
          cases hgl : getLinks ⟨s.base_url, v, s.page⟩ with
          | error e => simp [extractHtmlContent, hgl, Bind.bind, Except.bind] at hext
          | ok links =>
            cases hgi : getImgLinks ⟨s.base_url, v, s.page⟩ with
            | error e => simp [extractHtmlContent, hgl, hgi, Bind.bind, Except.bind] at hext
            | ok imgs =>
              simp [extractHtmlContent, hgl, hgi, Bind.bind, Except.bind, pure,
                Except.pure] at hext
              rw [← hext]
        simp [buildFullDocumentData, hh, hext, Bind.bind, Except.bind, pure,
          Except.pure] at hb
        rw [hs] at hh
        simp [← hb, docHtml, hh, hex2]

/-- C7 witness: a one-attempt 200 fetch of `"u"` with body byte 104 yields a
result with `html = some "h"` and status 200, and the saved document carries
exactly that html. -/
theorem html_iff_status_200_witness :
    ((fxRespMini.html.isSome ↔ fxRespMini.status = HTTP_OK) ∧
      docHtml fxDocMini = fxRespMini.html) :=
  html_iff_status_200 "u" 3 [.curlOk 200 [104]] [] fxRespMini fxSpiderMini fxDocMini
    (by decide) rfl (by decide)

/-- C8: for every crawl of a page fetched with status 200 (html present and
extraction succeeding), a capture identifier is generated and attached to the
document payload as `capture_id` regardless of whether the screenshot capture
call succeeds or fails: `get_screenshot` converts every failure into a
`False` return instead of raising, `_capture_screenshot` discards that
return and hands back the uuid unconditionally, and
`_build_full_document_data` attaches it. -/
theorem capture_id_attached_regardless :
    ∀ (s : Spider) (h : String) (ex : ExtractedFields),
      s.response.html = some h →
      s.response.status = HTTP_OK →
      extractHtmlContent ⟨s.base_url, h, s.page⟩ h = .ok ex →
      buildFullDocumentData s =
        .ok { buildBaseDocumentData s with
              flags := some (s.is_onion, s.in_scope),
              extracted := some ex,
              capture_id := some s.captureUuid } := by
  intro s h ex hh h200 hext
  simp [buildFullDocumentData, hh, hext, Bind.bind, Except.bind, pure, Except.pure,
    h200, captureScreenshot]

/-- C8 witness: the fixture spider whose capture call FAILS
(`captureOk = false`) still builds its status-200 document with
`capture_id = some "cap"` attached as a placeholder. -/
theorem capture_id_attached_regardless_witness :
    buildFullDocumentData fxSpiderCaptureFail =
      .ok { buildBaseDocumentData fxSpiderCaptureFail with
            flags := some (fxSpiderCaptureFail.is_onion, fxSpiderCaptureFail.in_scope),
            extracted := some fxExtracted,
            capture_id := some fxSpiderCaptureFail.captureUuid } :=
  capture_id_attached_regardless fxSpiderCaptureFail "x" fxExtracted rfl rfl (by decide)

/-- Helper: the shared output buffer accumulates across retries — after any
run of transport failures that fits the retry budget, a 200 attempt decodes
the WHOLE buffer (previous attempts' bytes included) into `html`. -/
theorem queryLoop_buffer_accum :
    ∀ (fails : List (List Nat)) (url : String) (t : Nat) (w : List Nat)
      (rest : List AttemptOutcome) (tc : Nat) (buf : List Nat)
      (racc : Option FetchResult) (html : String),
      tc + fails.length < max_try_count →
      decodeUtf8 (buf ++ (fails.flatten ++ w)) = some html →
      queryLoop url t (fails.map .transportError ++ .curlOk HTTP_OK w :: rest) tc buf racc =
        some (some ⟨url, some html, HTTP_OK, t⟩, rest) := by
  intro fails
  induction fails with
  | nil =>
    intro url t w rest tc buf racc html htc hdec
    rw [queryLoop.eq_def]
    have htc2 : tc < max_try_count := by simpa using htc
    simp only [htc2, if_true, List.map_nil, List.nil_append]
    have hdec2 : decodeUtf8 (buf ++ w) = some html := by simpa using hdec
    simp only [hdec2]
    have h200 : HTTP_OK ∈ http_codes := by decide
    simp only [h200, if_true, if_pos rfl]
    exact queryLoop_exit url t rest MAX_RETRY_SENTINEL (buf ++ w) _ (by decide)
  | cons f fs ih =>
    intro url t w rest tc buf racc html htc hdec
    rw [queryLoop.eq_def]
    have htc2 : tc < max_try_count := by
      have h3 : tc + 0 < tc + (f :: fs).length := by simp
      omega
    simp only [htc2, if_true, List.map_cons, List.cons_append]
    refine ih url t w rest (tc + 1) (buf ++ f) _ html (by simp at htc ⊢; omega) ?_
    simpa [List.append_assoc] using hdec

/-- C9: when failed attempts wrote bytes before raising and a later attempt
(within the retry budget) succeeds with status 200, the `html` of the
returned result decodes the concatenation of the bytes written by ALL
attempts — the shared output buffer is never reset between retries — not
the successful response's bytes alone. -/
theorem buffer_never_reset_across_retries :
    ∀ (url : String) (t : Nat) (fails : List (List Nat)) (w : List Nat)
      (rest : List AttemptOutcome) (html : String),
      fails.length < max_try_count →
      decodeUtf8 (fails.flatten ++ w) = some html →
      query url t (fails.map .transportError ++ .curlOk HTTP_OK w :: rest) =
        some (some ⟨url, some html, HTTP_OK, t⟩, rest) := by
  intro url t fails w rest html hlen hdec
  exact queryLoop_buffer_accum fails url t w rest 0 [] none html (by simpa using hlen)
    (by simpa using hdec)

/-- C9 witness: a transport failure that wrote byte 104 (`h`) followed by a
200 attempt writing byte 105 (`i`) returns `html = "hi"` — both attempts'
bytes — not `"i"` alone. -/
theorem buffer_never_reset_witness :
    query "u" 3 [.transportError [104], .curlOk HTTP_OK [105]] =
      some (some ⟨"u", some "hi", HTTP_OK, 3⟩, []) :=
  buffer_never_reset_across_retries "u" 3 [[104]] [105] [] "hi" (by decide) (by decide)

/-- C10: every job enqueued during fan-out carries exactly the five
positional arguments `(url, parent_id, depth_level, is_onion, in_scope)`;
dequeuing it applies `crawl_with_depth`'s declared defaults, so the child
Spider runs with `use_proxy = true` and `re_crawl = true` regardless of the
flags the parent invocation was called with. -/
theorem child_jobs_default_flags :
    ∀ (depth : Nat) (links : List Link) (pid : Nat) (q : List CrawlJob)
      (j : CrawlJob), j ∈ enqueueChildLinks depth links pid q →
      crawlWithDepthOfJob j =
        ⟨j.url, some j.parent_id, j.depth_level, j.is_onion, j.in_scope, true, true⟩ ∧
      ∀ (resp : FetchResult) (page : Page) (cOk : Bool) (cid : String),
        (spiderOfArgs (crawlWithDepthOfJob j) resp page cOk cid).proxy = true ∧
        (spiderOfArgs (crawlWithDepthOfJob j) resp page cOk cid).re_crawl = true :=
  fun _ _ _ _ _ _ => ⟨rfl, fun _ _ _ _ => ⟨rfl, rfl⟩⟩

/-- C10 witness: a concrete enqueued job (fan-out of one link at depth 1)
runs with `use_proxy = true` and `re_crawl = true`. -/
theorem child_jobs_default_flags_witness :
    crawlWithDepthOfJob ⟨"http://a.onion/", 4, 0, true, true⟩ =
      ⟨"http://a.onion/", some 4, 0, true, true, true, true⟩ ∧
    ∀ (resp : FetchResult) (page : Page) (cOk : Bool) (cid : String),
      (spiderOfArgs (crawlWithDepthOfJob ⟨"http://a.onion/", 4, 0, true, true⟩)
          resp page cOk cid).proxy = true ∧
      (spiderOfArgs (crawlWithDepthOfJob ⟨"http://a.onion/", 4, 0, true, true⟩)
          resp page cOk cid).re_crawl = true :=
  child_jobs_default_flags 1 [⟨"http://a.onion/", true, true⟩] 4 []
    ⟨"http://a.onion/", 4, 0, true, true⟩ (by decide)

end Poopak
